import Mathlib

/-!
Shallow embedding of `pygofile` (src/pygofile/gofile.py), a thin client for
the gofile.io HTTP API.  The embedding models:

* `Gofile.serialize`   - the request-payload builder (kwargs -> dict);
* `Gofile.parse_json`  - the `{status, data}` envelope unwrapper;
* the six operation methods (`upload`, `get_account_details`,
  `delete_content`, `set_folder_options`, `create_folder`, `server`).

Modelling conventions:

* Python dicts are association lists `List (String × α)`; `d[k] = v` is
  `dictInsert` (update in place if the key exists, else append), `d[k]`
  lookup is `pyLookup` (keys are unique at every call site, so first-match
  lookup agrees with Python).
* Decoded JSON is `JValue`; an HTTP response body (after `.json()`) is an
  object, modelled as `List (String × JValue)`.
* Exceptions are the error side of `Except PyErr _`.
* The network is an oracle `Transport : Request → List (String × JValue)`;
  each operation returns its result together with the list of requests it
  issued, in order, so that "zero network calls" is `trace = []`.
* The filesystem (`os.path.isfile`) is an oracle `fs : String → Bool`.
* `datetime.datetime(y, m, d).timestamp()` interprets the naive datetime in
  the platform's local timezone; the embedding takes the platform's UTC
  offset at that instant, in seconds east of UTC, as an explicit parameter
  `tz`, and the timestamp of local midnight is `daysFromCivil y m d * 86400 - tz`.
* `str(float).split(".", maxsplit=1)[0]` on an integer-valued float in the
  representable date range yields the integer's decimal string, modelled as
  `toString` of the integer.
-/

namespace Pygofile

/-- Decoded JSON value, as produced by `aiohttp`'s `.json()`. -/
inductive JValue where
  | str : String → JValue
  | num : Int → JValue
  | bool : Bool → JValue
  | null : JValue
  | obj : List (String × JValue) → JValue
  | arr : List JValue → JValue
deriving Repr

/-- Python exceptions that the embedded code can raise.  `serverError`
carries the raw status value, as `ServerError(json_["status"])` does. -/
inductive PyErr where
  | keyError : String → PyErr
  | typeError : String → PyErr
  | valueError : String → PyErr
  | notAuthenticated : String → PyErr
  | serverError : JValue → PyErr
deriving Repr

/-- Python dict lookup `d[k]` as an `Option`.  All dicts the program builds
or receives have unique keys, so first-match lookup agrees with Python. -/
def pyLookup {α : Type} : List (String × α) → String → Option α
  | [], _ => none
  | (k, v) :: rest, key => if k = key then some v else pyLookup rest key

/-- Python dict assignment `d[k] = v`: update in place if the key is
present, else append at the end (dict insertion order). -/
def dictInsert {α : Type} : List (String × α) → String → α → List (String × α)
  | [], k, v => [(k, v)]
  | (k', v') :: rest, k, v =>
    if k' = k then (k, v) :: rest else (k', v') :: dictInsert rest k v

/-- Python `str(value).replace(" ", "")`: remove every space character. -/
def pyStripSpaces (s : String) : String :=
  String.mk (s.data.filter fun c => c ≠ ' ')

/-- Truthiness of the held token (`self.token`): `None` and `""` are falsy. -/
def pyTruthy : Option String → Bool
  | none => false
  | some s => s ≠ ""

/-- Python `str(self.token)` under string formatting; `str(None) = "None"`. -/
def pyTokenStr : Option String → String
  | none => "None"
  | some s => s

/-- Python `str` of a bool, as `allDetails={allDetails}` formats it. -/
def pyBoolStr (b : Bool) : String := if b then "True" else "False"

/-- Gregorian leap-year test, as `datetime` uses. -/
def isLeap (y : Nat) : Bool := (y % 4 = 0 && y % 100 ≠ 0) || y % 400 = 0

/-- Length of a month, for `datetime.datetime`'s day-range validation. -/
def daysInMonth (y m : Nat) : Nat :=
  if m = 2 then (if isLeap y then 29 else 28)
  else if m = 4 ∨ m = 6 ∨ m = 9 ∨ m = 11 then 30
  else 31

/-- Days from 1970-01-01 to the civil date `y-m-d` (proleptic Gregorian),
the standard days-from-civil computation; `datetime.timestamp()` of naive
local midnight equals this times 86400 minus the local UTC offset. -/
def daysFromCivil (y m d : Nat) : Int :=
  let yAdj := if m ≤ 2 then y - 1 else y
  let era := yAdj / 400
  let yoe := yAdj % 400
  let mp := if m > 2 then m - 3 else m + 9
  let doy := (153 * mp + 2) / 5 + d - 1
  let doe := yoe * 365 + yoe / 4 - yoe / 100 + doy
  (era * 146097 + doe : Int) - 719468

/-- Splits a character list at every occurrence of the dash, keeping empty
groups, exactly as Python's `str.split("-")` does. -/
def splitDashChars : List Char → List (List Char)
  | [] => [[]]
  | c :: rest =>
    match splitDashChars rest with
    | [] => [[c]]
    | g :: gs => if c = '-' then [] :: g :: gs else (c :: g) :: gs

/-- Python `str(v).split("-")` as used on the `expire` value. -/
def pySplitDash (s : String) : List String :=
  (splitDashChars s.data).map String.mk

/-- Python `int(a)` on the pieces of a `"YYYY-MM-DD"` string: a non-empty
run of decimal digits (the signs, whitespace and underscore forms that
`int()` also accepts never occur in this format). -/
def pyParseNat (s : String) : Option Nat :=
  if s.data ≠ [] ∧ s.data.all (fun c => c.isDigit) then
    some (s.data.foldl (fun acc c => acc * 10 + (c.toNat - 48)) 0)
  else none

/-- Model of lines 281-283 of gofile.py for an `expire` value `v`:
`year, mon, day = (int(a) for a in str(v).split("-"))` followed by
`str(datetime.datetime(year, mon, day).timestamp()).split(".", 1)[0]`.
Any of the unpacking, the `int()` conversions and the `datetime` range
validation raises `ValueError`.  `tz` is the platform's UTC offset in
seconds; the timestamp of an in-range date is an integer-valued float
whose `str` form is `"<seconds>.0"`, so taking the part before the dot
yields the decimal string of the integer. -/
def pyDateTimestamp (v : String) (tz : Int) : Except PyErr String :=
  match pySplitDash v with
  | [ys, ms, ds] =>
    match pyParseNat ys, pyParseNat ms, pyParseNat ds with
    | some y, some m, some d =>
      if 1 ≤ y ∧ y ≤ 9999 ∧ 1 ≤ m ∧ m ≤ 12 ∧ 1 ≤ d ∧ d ≤ daysInMonth y m then
        Except.ok (toString (daysFromCivil y m d * 86400 - tz))
      else Except.error (PyErr.valueError "datetime argument out of range")
    | _, _, _ => Except.error (PyErr.valueError "invalid literal for int with base 10")
  | _ => Except.error (PyErr.valueError "unpacking mismatch")

namespace Gofile

/-- Loop body of `Gofile.serialize` (lines 268-284): fold over the kwargs
item list carrying the accumulated `data` dict.  A non-empty `folder_id`
resets `data` and returns `{folderId: v}` at once; the other recognised
keys are added when their value is truthy (non-empty); unknown keys (such
as `file`) are skipped. -/
def serializeAux (tz : Int) :
    List (String × String) → List (String × String) →
    Except PyErr (List (String × String))
  | [], data => Except.ok data
  | (k, v) :: rest, data =>
    if k = "folder_id" ∧ v ≠ "" then
      Except.ok [("folderId", v)]
    else if k = "description" ∧ v ≠ "" then
      serializeAux tz rest (dictInsert data k v)
    else if k = "password" ∧ v ≠ "" then
      serializeAux tz rest (dictInsert data k v)
    else if k = "tags" ∧ v ≠ "" then
      serializeAux tz rest (dictInsert data k (pyStripSpaces v))
    else if k = "expire" ∧ v ≠ "" then
      match pyDateTimestamp v tz with
      | Except.ok ts => serializeAux tz rest (dictInsert data k ts)
      | Except.error e => Except.error e
    else
      serializeAux tz rest data

/-- Static method `Gofile.serialize(**kwargs)` (lines 263-284).  `kwargs`
is the ordered keyword-argument list (Python kwargs keys are unique and
iterate in call order); `tz` is the platform UTC offset used by the
`expire` conversion. -/
def serialize (kwargs : List (String × String)) (tz : Int) :
    Except PyErr (List (String × String)) :=
  serializeAux tz kwargs []

/-- Python `json_["status"] == "ok"`: true exactly on the string "ok". -/
def isOkStatus : JValue → Bool
  | JValue.str s => s == "ok"
  | _ => false

/-- Static method `Gofile.parse_json(json_)` (lines 286-293): return
`json_["data"]` when `json_["status"] == "ok"`, else raise
`ServerError(json_["status"])`; a missing key raises `KeyError`. -/
def parse_json (json_ : List (String × JValue)) : Except PyErr JValue :=
  match pyLookup json_ "status" with
  | none => Except.error (PyErr.keyError "status")
  | some st =>
    if isOkStatus st then
      match pyLookup json_ "data" with
      | none => Except.error (PyErr.keyError "data")
      | some d => Except.ok d
    else Except.error (PyErr.serverError st)

end Gofile

mutual

/-- Python `repr` of a JSON value (used only through `pyStrJ` when a value
is interpolated into a format string).  Scalars are exact; for containers
the quote-escaping inside string literals is not modelled (no call site
depends on it). -/
def pyReprJ : JValue → String
  | JValue.str s => "'" ++ s ++ "'"
  | JValue.num n => toString n
  | JValue.bool b => pyBoolStr b
  | JValue.null => "None"
  | JValue.obj fields =>
    "\x7b" ++ String.intercalate ", " (pyReprFields fields) ++ "\x7d"
  | JValue.arr xs =>
    "[" ++ String.intercalate ", " (pyReprArr xs) ++ "]"

/-- Renders the `'key': repr(value)` entries of an object. -/
def pyReprFields : List (String × JValue) → List String
  | [] => []
  | (k, v) :: rest => ("'" ++ k ++ "': " ++ pyReprJ v) :: pyReprFields rest

/-- Renders the element list of an array. -/
def pyReprArr : List JValue → List String
  | [] => []
  | v :: rest => pyReprJ v :: pyReprArr rest

end

/-- Python `str` of a JSON value, as `self.API.format(server=server)`
applies it to the resolved server value. -/
def pyStrJ : JValue → String
  | JValue.str s => s
  | v => pyReprJ v

/-- Value of a multipart form field: a plain string, or the opened file
object assigned by `data_["file"] = _file` (identified by its path). -/
inductive FormValue where
  | str : String → FormValue
  | fileHandle : String → FormValue
deriving Repr

/-- One HTTP request as handed to the transport: method, full URL, and the
form body (empty for the GET endpoints, whose parameters are in the URL). -/
structure Request where
  method : String
  url : String
  data : List (String × FormValue)
deriving Repr

/-- The external HTTP transport: for each request, the decoded JSON object
of the response (`await resp.json()`).  Connection-level failures are the
transport's own and are not modelled. -/
def Transport : Type := Request → List (String × JValue)

/-- Client state: the `Gofile` instance holds only the optional token. -/
structure Client where
  token : Option String

/-- Class attribute `API = "https://{server}.gofile.io/"`. -/
def API : String := "https://{server}.gofile.io/"

/-- `self.API.format(server=s)`: the base URL with the server substituted. -/
def apiBase (serverName : String) : String :=
  "https://" ++ serverName ++ ".gofile.io/"

/-- `urllib.parse.urljoin` at this program's call sites: the base always
ends in "/" and the second argument is a relative path, so the result is
their concatenation. -/
def pyUrljoin (base rel : String) : String := base ++ rel

namespace Gofile

/-- Fixed keyword-argument order of the one `serialize` call site, upload
lines 127-134: file, description, password, tags, expire, folder_id. -/
def uploadKwargs (file description password tags expire folder_id : String) :
    List (String × String) :=
  [("file", file), ("description", description), ("password", password),
   ("tags", tags), ("expire", expire), ("folder_id", folder_id)]

/-- The `GET getServer` discovery request issued by `Gofile.server`. -/
def getServerReq : Request :=
  ⟨"GET", pyUrljoin (apiBase "api") "getServer", []⟩

/-- Subscript `server["server"]` on the unwrapped data: `KeyError` when the
key is absent, `TypeError` when the value is not an object. -/
def jGet : JValue → String → Except PyErr JValue
  | JValue.obj fields, k =>
    match pyLookup fields k with
    | some v => Except.ok v
    | none => Except.error (PyErr.keyError k)
  | _, k => Except.error (PyErr.typeError k)

/-- Method `Gofile.server` (lines 254-261): fetch `getServer`, unwrap the
envelope, and return the `server` entry of the data, with the request
trace. -/
def server (tr : Transport) : Except PyErr JValue × List Request :=
  ((Gofile.parse_json (tr getServerReq)).bind (fun d => jGet d "server"),
   [getServerReq])

/-- Body of `Gofile.upload` after its two validation checks (lines
127-145): the kwargs are serialized, the token is added when truthy, the
opened file is added under `file`, the server is resolved, and the
multipart POST to `uploadFile` is sent; the response envelope is
unwrapped. -/
def uploadRequestPhase (c : Client) (tz : Int)
    (file description password tags expire folder_id : String)
    (tr : Transport) : Except PyErr JValue × List Request :=
  match Gofile.serialize (uploadKwargs file description password tags expire folder_id) tz with
  | Except.error e => (Except.error e, [])
  | Except.ok data0 =>
    let data1 : List (String × FormValue) :=
      data0.map fun p => (p.1, FormValue.str p.2)
    let data2 :=
      if pyTruthy c.token then
        dictInsert data1 "token" (FormValue.str (pyTokenStr c.token))
      else data1
    let data3 := dictInsert data2 "file" (FormValue.fileHandle file)
    match Gofile.server tr with
    | (Except.error e, trace) => (Except.error e, trace)
    | (Except.ok sv, trace) =>
      let req : Request :=
        ⟨"POST", pyUrljoin (apiBase (pyStrJ sv)) "uploadFile", data3⟩
      (Gofile.parse_json (tr req), trace ++ [req])

/-- Method `Gofile.upload` (lines 65-145).  Validation first: the file must
exist (`os.path.isfile`, oracle `fs`) and a non-empty password must have
length at least 4; either failure raises `ValueError` before any request is
issued.  Otherwise the request phase runs. -/
def upload (c : Client) (fs : String → Bool) (tz : Int)
    (file description password tags expire folder_id : String)
    (tr : Transport) : Except PyErr JValue × List Request :=
  if fs file = false then
    (Except.error (PyErr.valueError "Only file supported"), [])
  else if password ≠ "" ∧ password.length < 4 then
    (Except.error (PyErr.valueError "password is too short (min len 4)"), [])
  else
    uploadRequestPhase c tz file description password tags expire folder_id tr

/-- Method `Gofile.get_account_details` (lines 147-167): `NotAuthenticated`
without a truthy token and no request issued; otherwise one GET with the
token and `allDetails` flag formatted into the query string. -/
def get_account_details (c : Client) (all_details : Bool) (tr : Transport) :
    Except PyErr JValue × List Request :=
  if pyTruthy c.token = false then
    (Except.error (PyErr.notAuthenticated "You must provide token."), [])
  else
    let req : Request :=
      ⟨"GET",
       pyUrljoin (apiBase "api")
         ("getAccountDetails?token=" ++ pyTokenStr c.token ++
          "&allDetails=" ++ pyBoolStr all_details), []⟩
    (Gofile.parse_json (tr req), [req])

/-- Method `Gofile.delete_content` (lines 169-183): `NotAuthenticated`
without a truthy token and no request issued; otherwise one DELETE with
body `{contentId, token}`. -/
def delete_content (c : Client) (content_id : String) (tr : Transport) :
    Except PyErr JValue × List Request :=
  if pyTruthy c.token = false then
    (Except.error (PyErr.notAuthenticated "You must provide token."), [])
  else
    let req : Request :=
      ⟨"DELETE", pyUrljoin (apiBase "api") "deleteContent",
       [("contentId", FormValue.str content_id),
        ("token", FormValue.str (pyTokenStr c.token))]⟩
    (Gofile.parse_json (tr req), [req])

/-- Method `Gofile.set_folder_options` (lines 185-225): `NotAuthenticated`
without a truthy token and no request issued; otherwise one PUT with body
`{token, folderId, option, value}`, where for `option == "tags"` the value
first has its spaces stripped. -/
def set_folder_options (c : Client) (folder_id option value : String)
    (tr : Transport) : Except PyErr JValue × List Request :=
  if pyTruthy c.token = false then
    (Except.error (PyErr.notAuthenticated "You must provide token."), [])
  else
    let req : Request :=
      ⟨"PUT", pyUrljoin (apiBase "api") "setFolderOptions",
       [("token", FormValue.str (pyTokenStr c.token)),
        ("folderId", FormValue.str folder_id),
        ("option", FormValue.str option),
        ("value", FormValue.str
          (if option = "tags" then pyStripSpaces value else value))]⟩
    (Gofile.parse_json (tr req), [req])

/-- Method `Gofile.create_folder` (lines 227-252): `NotAuthenticated`
without a truthy token and no request issued; otherwise one PUT with body
`{token, folderName, parentFolderId}`. -/
def create_folder (c : Client) (parent_folder_id folder_name : String)
    (tr : Transport) : Except PyErr JValue × List Request :=
  if pyTruthy c.token = false then
    (Except.error (PyErr.notAuthenticated "You must provide token."), [])
  else
    let req : Request :=
      ⟨"PUT", pyUrljoin (apiBase "api") "createFolder",
       [("token", FormValue.str (pyTokenStr c.token)),
        ("folderName", FormValue.str folder_name),
        ("parentFolderId", FormValue.str parent_folder_id)]⟩
    (Gofile.parse_json (tr req), [req])

end Gofile

/-! Theorems.  Each claim-level theorem is stated against the embedded
definitions above; shared helper lemmas come first. -/

/-- Helper for the folder-id override: whatever data has accumulated, once
the remaining kwargs still hold a non-empty `folder_id` entry (kwargs keys
are unique), the only normal return of the serialize loop is the
folder-override singleton. -/
theorem serializeAux_folderId (tz : Int) (v : String) (hv : v ≠ "") :
    ∀ (l data d : List (String × String)),
      ("folder_id", v) ∈ l → (l.map Prod.fst).Nodup →
      Gofile.serializeAux tz l data = Except.ok d → d = [("folderId", v)] := by
  intro l
  induction l with
  | nil => intro data d hmem; simp at hmem
  | cons kv rest ih =>
    intro data d hmem hnd h
    obtain ⟨k, w⟩ := kv
    by_cases hk : k = "folder_id" ∧ w ≠ ""
    · rw [Gofile.serializeAux, if_pos hk] at h
      cases h
      rcases List.mem_cons.mp hmem with heq | hmem'
      · cases heq
        rfl
      · exfalso
        have hfk : "folder_id" ∈ rest.map Prod.fst :=
          List.mem_map.mpr ⟨("folder_id", v), hmem', rfl⟩
        have hhd := (List.nodup_cons.mp hnd).1
        rw [hk.1] at hhd
        exact hhd hfk
    · have hmem' : ("folder_id", v) ∈ rest := by
        rcases List.mem_cons.mp hmem with heq | h'
        · exfalso
          apply hk
          cases heq
          exact ⟨rfl, hv⟩
        · exact h'
      have hnd' : (rest.map Prod.fst).Nodup := (List.nodup_cons.mp hnd).2
      rw [Gofile.serializeAux, if_neg hk] at h
      split_ifs at h
      · exact ih _ _ hmem' hnd' h
      · exact ih _ _ hmem' hnd' h
      · exact ih _ _ hmem' hnd' h
      · split at h
        · exact ih _ _ hmem' hnd' h
        · cases h
      · exact ih _ _ hmem' hnd' h

/-- Claim C1: whenever `serialize` is called with a non-empty `folder_id`
among its keyword arguments — in any position, so fields processed before
or after it alike — and returns normally, the returned mapping is exactly
`{folderId: folder_id}`. -/
theorem serialize_folder_id_override (kwargs : List (String × String))
    (tz : Int) (v : String) (hv : v ≠ "")
    (hmem : ("folder_id", v) ∈ kwargs) (hnd : (kwargs.map Prod.fst).Nodup)
    (d : List (String × String))
    (h : Gofile.serialize kwargs tz = Except.ok d) :
    d = [("folderId", v)] :=
  serializeAux_folderId tz v hv kwargs [] d hmem hnd h

/-- Witness for C1: the upload kwargs with every optional field supplied
and `folder_id = "fid"` serialize to the folder-override singleton. -/
theorem serialize_folder_id_override_witness :
    ("fid" : String) ≠ "" ∧
    ("folder_id", "fid")
      ∈ Gofile.uploadKwargs "a.txt" "desc" "abcd" "x, y" "2021-12-25" "fid" ∧
    ((Gofile.uploadKwargs "a.txt" "desc" "abcd" "x, y" "2021-12-25" "fid").map
      Prod.fst).Nodup ∧
    [("folderId", "fid")] = [("folderId", "fid")] := by
  refine ⟨by decide, by decide, by decide, ?_⟩
  exact serialize_folder_id_override
    (Gofile.uploadKwargs "a.txt" "desc" "abcd" "x, y" "2021-12-25" "fid") 0 "fid"
    (by decide) (by decide) (by decide) [("folderId", "fid")] rfl

/-- Claim C2: on an envelope whose `status` is the string `"ok"`,
`parse_json` returns the value under `data` unchanged; on an envelope whose
`status` is any other string, it raises `ServerError` carrying exactly that
status value. -/
theorem parse_json_envelope (env : List (String × JValue)) (st : String)
    (hs : pyLookup env "status" = some (JValue.str st)) :
    (st = "ok" → ∀ d : JValue, pyLookup env "data" = some d →
      Gofile.parse_json env = Except.ok d) ∧
    (st ≠ "ok" →
      Gofile.parse_json env = Except.error (PyErr.serverError (JValue.str st))) := by
  constructor
  · intro hok d hd
    subst hok
    simp [Gofile.parse_json, hs, Gofile.isOkStatus, hd]
  · intro hne
    simp [Gofile.parse_json, hs, Gofile.isOkStatus, hne]

/-- Witness for C2, on the spec's two example envelopes. -/
theorem parse_json_envelope_witness :
    Gofile.parse_json
        [("status", JValue.str "ok"), ("data", JValue.obj [("x", JValue.num 1)])]
      = Except.ok (JValue.obj [("x", JValue.num 1)]) ∧
    Gofile.parse_json [("status", JValue.str "error-auth")]
      = Except.error (PyErr.serverError (JValue.str "error-auth")) :=
  ⟨(parse_json_envelope
      [("status", JValue.str "ok"), ("data", JValue.obj [("x", JValue.num 1)])]
      "ok" rfl).1 rfl _ rfl,
   (parse_json_envelope [("status", JValue.str "error-auth")]
      "error-auth" rfl).2 (by decide)⟩

/-- Claim C3: with `folder_id` empty, a successful `serialize` of the
upload kwargs yields a mapping whose keys are exactly the wire keys of the
non-empty optional fields, and the empty mapping when none is supplied. -/
theorem serialize_optional_fields (file description password tags expire : String)
    (tz : Int) (d : List (String × String))
    (h : Gofile.serialize
        (Gofile.uploadKwargs file description password tags expire "") tz
      = Except.ok d) :
    d.map Prod.fst =
      (if description = "" then [] else ["description"]) ++
      (if password = "" then [] else ["password"]) ++
      (if tags = "" then [] else ["tags"]) ++
      (if expire = "" then [] else ["expire"]) ∧
    (description = "" ∧ password = "" ∧ tags = "" ∧ expire = "" → d = []) := by
  have hkeys : d.map Prod.fst =
      (if description = "" then [] else ["description"]) ++
      (if password = "" then [] else ["password"]) ++
      (if tags = "" then [] else ["tags"]) ++
      (if expire = "" then [] else ["expire"]) := by
    by_cases he : expire = ""
    · by_cases hd : description = "" <;> by_cases hp : password = "" <;>
        by_cases ht : tags = "" <;>
        (simp [Gofile.serialize, Gofile.serializeAux, Gofile.uploadKwargs,
           dictInsert, hd, hp, ht, he] at h
         subst h
         simp [hd, hp, ht, he])
    · cases hts : pyDateTimestamp expire tz with
      | error e =>
        simp [Gofile.serialize, Gofile.serializeAux, Gofile.uploadKwargs,
          dictInsert, he, hts] at h
      | ok ts =>
        by_cases hd : description = "" <;> by_cases hp : password = "" <;>
          by_cases ht : tags = "" <;>
          (simp [Gofile.serialize, Gofile.serializeAux, Gofile.uploadKwargs,
             dictInsert, hd, hp, ht, he, hts] at h
           subst h
           simp [hd, hp, ht, he])
  refine ⟨hkeys, ?_⟩
  rintro ⟨h1, h2, h3, h4⟩
  have hm : d.map Prod.fst = [] := by simp [hkeys, h1, h2, h3, h4]
  simpa using hm

/-- Witness for C3: only a description supplied gives exactly the
`description` key. -/
theorem serialize_optional_fields_witness :
    Gofile.serialize (Gofile.uploadKwargs "a.txt" "hello" "" "" "" "") 0
      = Except.ok [("description", "hello")] ∧
    [("description", "hello")].map Prod.fst
      = (if ("hello" : String) = "" then [] else ["description"]) ++
        (if ("" : String) = "" then [] else ["password"]) ++
        (if ("" : String) = "" then [] else ["tags"]) ++
        (if ("" : String) = "" then [] else ["expire"]) :=
  ⟨rfl, (serialize_optional_fields "a.txt" "hello" "" "" "" 0
    [("description", "hello")] rfl).1⟩

/-- Counterexample to C4 as stated: `datetime.datetime(y, m, d)` is naive
and `timestamp()` interprets it in the platform's local timezone, so on a
platform one hour east of UTC (offset 3600 s) the serialized `expire` for
`"2021-12-25"` is `"1640386800"`, not the UTC-midnight value
`"1640390400"`. -/
theorem serialize_expire_not_utc_on_nonzero_offset :
    Gofile.serialize (Gofile.uploadKwargs "" "" "" "" "2021-12-25" "") 3600
      = Except.ok [("expire", "1640386800")] ∧
    ("1640386800" : String) ≠ "1640390400" := ⟨rfl, by decide⟩

/-- Claim C4 as amended: for expire input `"2021-12-25"`, serialize stores
under `expire` the decimal string of the Unix-seconds timestamp of local
midnight on that date — the UTC-midnight value 1640390400 minus the
platform's UTC offset, so exactly the UTC-midnight string on a platform
with offset zero — always an exact integer with no decimal point; and in
general, every `"YYYY-MM-DD"` expire input naming a valid calendar date is
converted to the integral Unix-seconds timestamp string of local midnight
on that date, `daysFromCivil y m d * 86400 - tz`. -/
theorem serialize_expire_local_midnight :
    (∀ tz : Int,
      Gofile.serialize (Gofile.uploadKwargs "" "" "" "" "2021-12-25" "") tz
        = Except.ok [("expire", toString (1640390400 - tz))]) ∧
    (∀ (expire ys ms ds : String) (y m d : Nat) (tz : Int),
      pySplitDash expire = [ys, ms, ds] →
      pyParseNat ys = some y → pyParseNat ms = some m → pyParseNat ds = some d →
      1 ≤ y → y ≤ 9999 → 1 ≤ m → m ≤ 12 → 1 ≤ d → d ≤ daysInMonth y m →
      Gofile.serialize (Gofile.uploadKwargs "" "" "" "" expire "") tz
        = Except.ok [("expire", toString (daysFromCivil y m d * 86400 - tz))]) := by
  constructor
  · intro tz
    rfl
  · intro expire ys ms ds y m d tz hsplit hy hm hd h1 h2 h3 h4 h5 h6
    have hne : expire ≠ "" := by
      intro he
      rw [he] at hsplit
      simp [pySplitDash, splitDashChars] at hsplit
    have hts : pyDateTimestamp expire tz
        = Except.ok (toString (daysFromCivil y m d * 86400 - tz)) := by
      simp [pyDateTimestamp, hsplit, hy, hm, hd, h1, h2, h3, h4, h5, h6]
    simp [Gofile.serialize, Gofile.serializeAux, Gofile.uploadKwargs,
      dictInsert, hne, hts]

/-- Witness for C4 (amended): the general date clause applied to the leap
date `"2024-02-29"`, and the concrete date on a zero-offset platform. -/
theorem serialize_expire_local_midnight_witness :
    pySplitDash "2024-02-29" = ["2024", "02", "29"] ∧
    pyParseNat "2024" = some 2024 ∧ pyParseNat "02" = some 2 ∧
    pyParseNat "29" = some 29 ∧ 29 ≤ daysInMonth 2024 2 ∧
    Gofile.serialize (Gofile.uploadKwargs "" "" "" "" "2024-02-29" "") 0
      = Except.ok [("expire", toString (daysFromCivil 2024 2 29 * 86400 - 0))] ∧
    Gofile.serialize (Gofile.uploadKwargs "" "" "" "" "2021-12-25" "") 0
      = Except.ok [("expire", toString ((1640390400 : Int) - 0))] := by
  refine ⟨rfl, rfl, rfl, rfl, by decide, ?_, serialize_expire_local_midnight.1 0⟩
  exact serialize_expire_local_midnight.2 "2024-02-29" "2024" "02" "29"
    2024 2 29 0 rfl rfl rfl rfl (by decide) (by decide) (by decide) (by decide)
    (by decide) (by decide)

/-- Claim C5: with no truthy token held, each of the four authenticated
operations fails with `NotAuthenticated` and issues zero requests. -/
theorem auth_required_no_network (c : Client) (h : pyTruthy c.token = false)
    (all_details : Bool) (content_id fid opt value pfid fname : String)
    (tr : Transport) :
    Gofile.get_account_details c all_details tr
      = (Except.error (PyErr.notAuthenticated "You must provide token."), []) ∧
    Gofile.delete_content c content_id tr
      = (Except.error (PyErr.notAuthenticated "You must provide token."), []) ∧
    Gofile.set_folder_options c fid opt value tr
      = (Except.error (PyErr.notAuthenticated "You must provide token."), []) ∧
    Gofile.create_folder c pfid fname tr
      = (Except.error (PyErr.notAuthenticated "You must provide token."), []) := by
  refine ⟨?_, ?_, ?_, ?_⟩ <;>
    simp [Gofile.get_account_details, Gofile.delete_content,
      Gofile.set_folder_options, Gofile.create_folder, h]

/-- Witness for C5, on a client constructed without a token. -/
theorem auth_required_no_network_witness :
    pyTruthy (Client.mk none).token = false ∧
    Gofile.get_account_details ⟨none⟩ false (fun _ => [])
      = (Except.error (PyErr.notAuthenticated "You must provide token."), []) ∧
    Gofile.delete_content ⟨none⟩ "cid" (fun _ => [])
      = (Except.error (PyErr.notAuthenticated "You must provide token."), []) ∧
    Gofile.set_folder_options ⟨none⟩ "fid" "private" "true" (fun _ => [])
      = (Except.error (PyErr.notAuthenticated "You must provide token."), []) ∧
    Gofile.create_folder ⟨none⟩ "pfid" "name" (fun _ => [])
      = (Except.error (PyErr.notAuthenticated "You must provide token."), []) :=
  ⟨rfl, auth_required_no_network ⟨none⟩ rfl false "cid" "fid" "private" "true"
    "pfid" "name" (fun _ => [])⟩

/-- Counterexample to C6 as stated: a password of length ≥ 4 does not
always appear in the serialized payload — with a non-empty `folder_id` the
folder-override rule discards it, so "for every upload call" fails. -/
theorem upload_password_discarded_by_folder_id :
    4 ≤ ("abcd" : String).length ∧
    Gofile.serialize (Gofile.uploadKwargs "a.txt" "" "abcd" "" "" "fid") 0
      = Except.ok [("folderId", "fid")] ∧
    pyLookup [("folderId", "fid")] "password" = (none : Option String) :=
  ⟨by decide, rfl, rfl⟩

/-- Claim C6 as amended: for an existing file, a non-empty password shorter
than 4 characters makes `upload` raise the password `ValueError` with zero
requests issued; a password of length ≥ 4 passes validation (upload
proceeds to its request phase), and when `folder_id` is empty every
successful serialization carries it verbatim under the `password` key. -/
theorem upload_password_validation (c : Client) (fs : String → Bool) (tz : Int)
    (file description password tags expire folder_id : String) (tr : Transport)
    (hf : fs file = true) :
    (password ≠ "" ∧ password.length < 4 →
      Gofile.upload c fs tz file description password tags expire folder_id tr
        = (Except.error (PyErr.valueError "password is too short (min len 4)"), [])) ∧
    (4 ≤ password.length →
      Gofile.upload c fs tz file description password tags expire folder_id tr
        = Gofile.uploadRequestPhase c tz file description password tags expire
            folder_id tr) ∧
    (∀ d : List (String × String),
      Gofile.serialize
          (Gofile.uploadKwargs file description password tags expire "") tz
        = Except.ok d →
      password ≠ "" → pyLookup d "password" = some password) := by
  refine ⟨?_, ?_, ?_⟩
  · intro hp
    simp [Gofile.upload, hf, hp.1, hp.2]
  · intro hp
    have hnot : ¬(password ≠ "" ∧ password.length < 4) := by
      rintro ⟨-, hlt⟩; omega
    simp [Gofile.upload, hf, hnot]
  · intro d hser hp
    by_cases hd : description = "" <;> by_cases ht : tags = "" <;>
      by_cases he : expire = ""
    all_goals (
      first
      | (simp [Gofile.serialize, Gofile.serializeAux, Gofile.uploadKwargs,
          dictInsert, hd, ht, he, hp] at hser
         subst hser
         simp [pyLookup])
      | (cases hts : pyDateTimestamp expire tz with
         | ok ts =>
           simp [Gofile.serialize, Gofile.serializeAux, Gofile.uploadKwargs,
             dictInsert, hd, ht, he, hp, hts] at hser
           subst hser
           simp [pyLookup]
         | error e =>
           simp [Gofile.serialize, Gofile.serializeAux, Gofile.uploadKwargs,
             dictInsert, hd, ht, he, hp, hts] at hser))

/-- Witness for C6 (amended): password `"abcd"` passes validation and is
carried verbatim in the serialized payload. -/
theorem upload_password_validation_witness :
    (fun _ : String => true) "a.txt" = true ∧
    Gofile.upload ⟨none⟩ (fun _ => true) 0 "a.txt" "" "abcd" "" "" "" (fun _ => [])
      = Gofile.uploadRequestPhase ⟨none⟩ 0 "a.txt" "" "abcd" "" "" "" (fun _ => []) ∧
    pyLookup [("password", "abcd")] "password" = some "abcd" := by
  have h := upload_password_validation ⟨none⟩ (fun _ => true) 0
    "a.txt" "" "abcd" "" "" "" (fun _ => []) rfl
  exact ⟨rfl, h.2.1 (by decide), h.2.2 [("password", "abcd")] rfl (by decide)⟩

/-- Claim C7: every non-empty tags value has its space characters stripped
by `serialize` (`"a, b, c"` becomes `"a,b,c"`), and `set_folder_options`
with option `"tags"` likewise strips spaces from the value placed in the
request body. -/
theorem tags_spaces_stripped :
    (∀ (tags : String) (tz : Int), tags ≠ "" →
      Gofile.serialize (Gofile.uploadKwargs "" "" "" tags "" "") tz
        = Except.ok [("tags", pyStripSpaces tags)]) ∧
    Gofile.serialize (Gofile.uploadKwargs "" "" "" "a, b, c" "" "") 0
      = Except.ok [("tags", "a,b,c")] ∧
    (∀ (c : Client) (fid value : String) (tr : Transport),
      pyTruthy c.token = true →
      (Gofile.set_folder_options c fid "tags" value tr).2.map Request.data
        = [[("token", FormValue.str (pyTokenStr c.token)),
            ("folderId", FormValue.str fid),
            ("option", FormValue.str "tags"),
            ("value", FormValue.str (pyStripSpaces value))]]) := by
  refine ⟨?_, rfl, ?_⟩
  · intro tags tz ht
    simp [Gofile.serialize, Gofile.serializeAux, Gofile.uploadKwargs,
      dictInsert, ht]
  · intro c fid value tr h
    simp [Gofile.set_folder_options, h]

/-- Witness for C7, on concrete tag strings with embedded spaces. -/
theorem tags_spaces_stripped_witness :
    Gofile.serialize (Gofile.uploadKwargs "" "" "" "a, b, c" "" "") 0
      = Except.ok [("tags", "a,b,c")] ∧
    pyTruthy (Client.mk (some "tok")).token = true ∧
    (Gofile.set_folder_options ⟨some "tok"⟩ "fid" "tags" "x, y"
        (fun _ => [])).2.map Request.data
      = [[("token", FormValue.str "tok"), ("folderId", FormValue.str "fid"),
          ("option", FormValue.str "tags"), ("value", FormValue.str "x,y")]] := by
  refine ⟨tags_spaces_stripped.2.1, rfl, ?_⟩
  exact tags_spaces_stripped.2.2 ⟨some "tok"⟩ "fid" "x, y" (fun _ => []) rfl

/-- Claim C8: when the file argument does not reference an existing file,
`upload` raises the `ValueError` validation failure with zero requests
issued. -/
theorem upload_missing_file (c : Client) (fs : String → Bool) (tz : Int)
    (file description password tags expire folder_id : String) (tr : Transport)
    (h : fs file = false) :
    Gofile.upload c fs tz file description password tags expire folder_id tr
      = (Except.error (PyErr.valueError "Only file supported"), []) := by
  simp [Gofile.upload, h]

/-- Witness for C8, with a filesystem oracle holding no files. -/
theorem upload_missing_file_witness :
    (fun _ : String => false) "ghost.bin" = false ∧
    Gofile.upload ⟨none⟩ (fun _ => false) 0 "ghost.bin" "" "" "" "" ""
        (fun _ => [])
      = (Except.error (PyErr.valueError "Only file supported"), []) :=
  ⟨rfl, upload_missing_file ⟨none⟩ (fun _ => false) 0 "ghost.bin" "" "" "" "" ""
    (fun _ => []) rfl⟩

/-- Claim C9: the password length check precedes and is independent of the
folder-id override — with an existing file, a non-empty `folder_id` and a
password of length 1-3, `upload` still raises the password `ValueError`
with zero requests issued, although serialization would have discarded the
password field. -/
theorem upload_short_password_with_folder_id (c : Client) (fs : String → Bool)
    (tz : Int) (file description password tags folder_id : String)
    (tr : Transport) (hf : fs file = true) (hfid : folder_id ≠ "")
    (hp1 : password ≠ "") (hp2 : password.length < 4) :
    (∀ expire : String,
      Gofile.upload c fs tz file description password tags expire folder_id tr
        = (Except.error (PyErr.valueError "password is too short (min len 4)"), [])) ∧
    Gofile.serialize
        (Gofile.uploadKwargs file description password tags "" folder_id) tz
      = Except.ok [("folderId", folder_id)] := by
  constructor
  · intro expire
    simp [Gofile.upload, hf, hp1, hp2]
  · by_cases hd : description = "" <;>
      simp [Gofile.serialize, Gofile.serializeAux, Gofile.uploadKwargs,
        dictInsert, hd, hp1, hfid]

/-- Witness for C9: password `"abc"` with folder id `"fid"`. -/
theorem upload_short_password_with_folder_id_witness :
    (fun _ : String => true) "a.txt" = true ∧ ("fid" : String) ≠ "" ∧
    ("abc" : String) ≠ "" ∧ ("abc" : String).length < 4 ∧
    Gofile.upload ⟨none⟩ (fun _ => true) 0 "a.txt" "" "abc" "" "" "fid"
        (fun _ => [])
      = (Except.error (PyErr.valueError "password is too short (min len 4)"), []) ∧
    Gofile.serialize (Gofile.uploadKwargs "a.txt" "" "abc" "" "" "fid") 0
      = Except.ok [("folderId", "fid")] := by
  have h := upload_short_password_with_folder_id ⟨none⟩ (fun _ => true) 0
    "a.txt" "" "abc" "" "fid" (fun _ => []) rfl (by decide) (by decide) (by decide)
  exact ⟨rfl, by decide, by decide, by decide, h.1 "", h.2⟩

/-- Claim C10: `parse_json` is partial on malformed envelopes — a mapping
without a `status` key fails with `KeyError("status")`, and a mapping with
`status = "ok"` but no `data` key fails with `KeyError("data")`; neither is
a `ServerError` nor a normal return. -/
theorem parse_json_missing_keys (env : List (String × JValue)) :
    (pyLookup env "status" = none →
      Gofile.parse_json env = Except.error (PyErr.keyError "status")) ∧
    (pyLookup env "status" = some (JValue.str "ok") → pyLookup env "data" = none →
      Gofile.parse_json env = Except.error (PyErr.keyError "data")) := by
  constructor
  · intro h
    simp [Gofile.parse_json, h]
  · intro hs hd
    simp [Gofile.parse_json, hs, hd, Gofile.isOkStatus]

/-- Witness for C10, on the empty envelope and a data-less ok envelope. -/
theorem parse_json_missing_keys_witness :
    Gofile.parse_json ([] : List (String × JValue))
      = Except.error (PyErr.keyError "status") ∧
    Gofile.parse_json [("status", JValue.str "ok")]
      = Except.error (PyErr.keyError "data") :=
  ⟨(parse_json_missing_keys []).1 rfl,
   (parse_json_missing_keys [("status", JValue.str "ok")]).2 rfl rfl⟩

end Pygofile
